import Mathlib

/-!
Verification of the okx-client WebSocket session manager.

This file gives a shallow embedding, in Lean 4, of the session-manager core
of the okx-client repository (src/ws/mod.rs, src/ws/api.rs, src/ws/store.rs,
src/ws/router.rs, src/ws/connection.rs, src/types/ws/*), and proves or
refutes the specification claims about it.

Modelling conventions:
* Rust `HashSet` fields become `Finset` (structural equality and hashing are
  derived in the source, so set semantics are exact); `HashSet::drain` order
  is arbitrary in Rust and is modelled through `Finset.toList`.
* A tokio `mpsc::UnboundedSender<String>` carrying serialized frames becomes
  `Option (List OutFrame)`: `none` is an absent channel, `some q` holds the
  frames sent so far in order.  Serialization of the plain request structs
  cannot fail, so `serde_json::to_string` is modelled as the identity
  embedding into the structured `OutFrame` type.
* External I/O (the socket connect, the system clock, the signer) enters as
  explicit oracle arguments.
* `serde_json::Value` payloads are opaque to the session manager and are
  modelled by an abstract alias.
-/

deriving instance DecidableEq for Except

namespace OkxWs

/-- Opaque JSON payload; the session manager never inspects these values. -/
abbrev JsonValue := String

/-- Rust `str::starts_with`, stated on the character lists (the built-in
`String.startsWith` does not reduce in the kernel). -/
def str_starts_with (s p : String) : Bool :=
  p.data.isPrefixOf s.data

/-- `WsConnectionType` from src/types/ws/events.rs. -/
inductive WsConnectionType where
  | Public
  | Private
  | Business
deriving DecidableEq, Repr

/-- `ConnectionState` from src/ws/store.rs. -/
inductive ConnectionState where
  | Disconnected
  | Connecting
  | Connected
  | Authenticated
  | Reconnecting
deriving DecidableEq, Repr

/-- `WsSubscriptionArg` from src/types/ws/channels.rs: a channel name plus
optional filter fields, with structural equality. -/
structure WsSubscriptionArg where
  channel : String
  instType : Option String
  instId : Option String
  instFamily : Option String
  ccy : Option String
  uid : Option String
  algoId : Option String
deriving DecidableEq, Repr

/-- `WsSubscriptionArg::with_inst_id`. -/
def WsSubscriptionArg.with_inst_id (channel instId : String) : WsSubscriptionArg :=
  ⟨channel, none, some instId, none, none, none, none⟩

/-- `WsSubscriptionArg::with_inst_type`. -/
def WsSubscriptionArg.with_inst_type (channel instType : String) : WsSubscriptionArg :=
  ⟨channel, some instType, none, none, none, none, none⟩

/-- `WsSubscriptionArg::channel_only`. -/
def WsSubscriptionArg.channel_only (channel : String) : WsSubscriptionArg :=
  ⟨channel, none, none, none, none, none, none⟩

/-- `WsSubscriptionArg::is_private` from src/types/ws/channels.rs.  Note the
literal `"balance_and_position"` (underscores), matching the source. -/
def WsSubscriptionArg.is_private (a : WsSubscriptionArg) : Bool :=
  match a.channel with
  | "account" => true
  | "positions" => true
  | "balance_and_position" => true
  | "orders" => true
  | "orders-algo" => true
  | "algo-advance" => true
  | "liquidation-warning" => true
  | "account-greeks" => true
  | "grid-orders-spot" => true
  | "grid-orders-contract" => true
  | "grid-orders-moon" => true
  | "grid-positions" => true
  | "grid-sub-orders" => true
  | _ => false

/-- `WsSubscriptionArg::is_business` from src/types/ws/channels.rs. -/
def WsSubscriptionArg.is_business (a : WsSubscriptionArg) : Bool :=
  let ch := a.channel
  str_starts_with ch "candle" || str_starts_with ch "mark-price-candle" ||
    str_starts_with ch "index-candle" ||
    (ch == "deposit-info" || ch == "withdrawal-info" ||
      ch == "grid-orders-spot" || ch == "grid-orders-contract")

/-- `route_subscription` from src/ws/router.rs. -/
def route_subscription (arg : WsSubscriptionArg) : WsConnectionType :=
  if arg.is_private then WsConnectionType.Private
  else if arg.is_business then WsConnectionType.Business
  else WsConnectionType.Public

/-- `WsSubRequest` from src/types/ws/requests.rs. -/
structure WsSubRequest where
  op : String
  args : List WsSubscriptionArg
deriving DecidableEq, Repr

/-- `WsSubRequest::subscribe`. -/
def WsSubRequest.subscribe (args : List WsSubscriptionArg) : WsSubRequest :=
  ⟨"subscribe", args⟩

/-- `WsSubRequest::unsubscribe`. -/
def WsSubRequest.unsubscribe (args : List WsSubscriptionArg) : WsSubRequest :=
  ⟨"unsubscribe", args⟩

/-- `WsLoginArg` from src/types/ws/requests.rs. -/
structure WsLoginArg where
  apiKey : String
  passphrase : String
  timestamp : String
  sign : String
deriving DecidableEq, Repr

/-- `WsLoginRequest` from src/types/ws/requests.rs. -/
structure WsLoginRequest where
  op : String
  args : List WsLoginArg
deriving DecidableEq, Repr

/-- `WsApiRequest` from src/types/ws/requests.rs. -/
structure WsApiRequest where
  id : String
  op : String
  args : List JsonValue
deriving DecidableEq, Repr

/-- A serialized outbound text frame, kept structured (serialization of the
plain request structs is injective and never fails). -/
inductive OutFrame where
  | sub (req : WsSubRequest)
  | login (req : WsLoginRequest)
  | api (req : WsApiRequest)
deriving DecidableEq, Repr

/-- `WsApiResponse` from src/types/ws/events.rs. -/
structure WsApiResponse where
  id : String
  op : String
  code : String
  msg : String
  data : List JsonValue
  inTime : Option String
  outTime : Option String
deriving DecidableEq, Repr

/-- `WsEvent` from src/types/ws/events.rs (the `arg`/`data`/`connCount`
fields are opaque payloads never read by the session manager). -/
structure WsEvent where
  event : String
  code : Option String
  msg : Option String
deriving DecidableEq, Repr

/-- `WsMessage` from src/types/ws/events.rs. -/
inductive WsMessage where
  | Data (arg : WsSubscriptionArg) (data : List JsonValue)
  | Event (evt : WsEvent)
  | Pong
  | ApiResponse (resp : WsApiResponse)
  | Connected (c : WsConnectionType)
  | Disconnected (c : WsConnectionType)
deriving DecidableEq, Repr

/-- The `OkxError` variants reachable from the WebSocket session manager
(src/error.rs; the REST-only variants are omitted). -/
inductive OkxError where
  | Api (code : String) (msg : String)
  | Auth (msg : String)
  | Ws (msg : String)
deriving DecidableEq, Repr

/-- `Credentials` from src/config.rs, as read by the ws login path. -/
structure Credentials where
  apiKey : String
  apiSecret : String
  passphrase : String
deriving DecidableEq, Repr

/-- The number of values of a `u64`: the `AtomicU64` counter wraps at this
modulus. -/
def U64_SIZE : Nat := 2 ^ 64

/-- `next_request_id` from src/ws/api.rs: `fetch_add(1, SeqCst).to_string()`
on the process-wide `REQUEST_ID_COUNTER` (a `static AtomicU64`, initial
value 1).  The atomic fetch-add linearizes concurrent calls, so the
generator is modelled as a function of the counter value: it returns the
decimal rendering of the current value and the incremented counter, which
wraps at `2 ^ 64` exactly as `AtomicU64::fetch_add` does. -/
def next_request_id (counter : Nat) : String × Nat :=
  (Nat.repr counter, (counter + 1) % U64_SIZE)

/-- Initial value of `REQUEST_ID_COUNTER`. -/
def REQUEST_ID_START : Nat := 1

/-- `build_api_request` from src/ws/api.rs, explicit in the counter. -/
def build_api_request (op : String) (args : List JsonValue) (counter : Nat) :
    WsApiRequest × Nat :=
  let (id, counter') := next_request_id counter
  (⟨id, op, args⟩, counter')

/-- `PendingRequests` from src/ws/api.rs: a map from request id to a
single-use oneshot sender.  The senders are opaque, so the registry is the
set of registered ids; delivery through a sender is made observable in
`PendingRequests.resolve`'s third component. -/
structure PendingRequests where
  inner : Finset String
deriving DecidableEq

/-- `PendingRequests::new`. -/
def PendingRequests.new : PendingRequests := ⟨∅⟩

/-- `PendingRequests::register`. -/
def PendingRequests.register (p : PendingRequests) (id : String) : PendingRequests :=
  ⟨insert id p.inner⟩

/-- `PendingRequests::resolve`: remove and fulfill the waiter if present.
Returns (found, registry after, response delivered to a waiter). -/
def PendingRequests.resolve (p : PendingRequests) (id : String)
    (response : WsApiResponse) : Bool × PendingRequests × Option WsApiResponse :=
  if id ∈ p.inner then (true, ⟨p.inner.erase id⟩, some response)
  else (false, p, none)

/-- `PendingRequests::reject_all`: drops every entry (each dropped sender
fails its waiter with a connection-lost condition). -/
def PendingRequests.reject_all (_p : PendingRequests) : PendingRequests :=
  ⟨∅⟩

/-- `HashSet::insert`: a no-op when the element is already present (the
iteration order of a `HashSet` is arbitrary; this model keeps insertion
order, and every claim about the sets is stated through their `toFinset`
view). -/
def hashset_insert {α : Type} [DecidableEq α] (s : List α) (a : α) : List α :=
  if a ∈ s then s else s ++ [a]

/-- `HashSet::remove`. -/
def hashset_remove {α : Type} [DecidableEq α] (s : List α) (a : α) : List α :=
  s.filter (fun x => x ≠ a)

/-- `ConnectionStore` from src/ws/store.rs.  The two `HashSet` fields are
modelled as duplicate-free lists (see `hashset_insert`). -/
structure ConnectionStore where
  conn_type : WsConnectionType
  state : ConnectionState
  subscribed_topics : List WsSubscriptionArg
  pending_topics : List WsSubscriptionArg
  is_authenticated : Bool
deriving DecidableEq

/-- `ConnectionStore::new`. -/
def ConnectionStore.new (c : WsConnectionType) : ConnectionStore :=
  ⟨c, ConnectionState.Disconnected, [], [], false⟩

/-- `WsStore` from src/ws/store.rs (the Rust fields `public`, `private`,
`business`; the second is renamed because `private` is a Lean keyword). -/
structure WsStore where
  public : Option ConnectionStore
  private' : Option ConnectionStore
  business : Option ConnectionStore
deriving DecidableEq

/-- `WsStore::new`. -/
def WsStore.new : WsStore := ⟨none, none, none⟩

/-- `WsStore::get`. -/
def WsStore.get (s : WsStore) (c : WsConnectionType) : Option ConnectionStore :=
  match c with
  | WsConnectionType.Public => s.public
  | WsConnectionType.Private => s.private'
  | WsConnectionType.Business => s.business

/-- Write one connection's record (the store side of a `&mut` borrow). -/
def WsStore.set (s : WsStore) (c : WsConnectionType) (rec : ConnectionStore) :
    WsStore :=
  match c with
  | WsConnectionType.Public => { s with public := some rec }
  | WsConnectionType.Private => { s with private' := some rec }
  | WsConnectionType.Business => { s with business := some rec }

/-- `WsStore::get_or_create`, read side: the record that the `&mut` borrow
sees (existing, or freshly created). -/
def WsStore.get_or_create (s : WsStore) (c : WsConnectionType) : ConnectionStore :=
  (s.get c).getD (ConnectionStore.new c)

/-- A mutation through `get_or_create`: fetch-or-create, mutate, store. -/
def WsStore.modify (s : WsStore) (c : WsConnectionType)
    (f : ConnectionStore → ConnectionStore) : WsStore :=
  s.set c (f (s.get_or_create c))

/-- `WriteChannels` from src/ws/mod.rs; each channel is the ordered list of
frames sent on it so far. -/
structure WriteChannels where
  public : Option (List OutFrame)
  private' : Option (List OutFrame)
  business : Option (List OutFrame)
deriving DecidableEq

/-- `WriteChannels::default`. -/
def WriteChannels.default : WriteChannels := ⟨none, none, none⟩

/-- `WriteChannels::get`. -/
def WriteChannels.get (w : WriteChannels) (c : WsConnectionType) :
    Option (List OutFrame) :=
  match c with
  | WsConnectionType.Public => w.public
  | WsConnectionType.Private => w.private'
  | WsConnectionType.Business => w.business

/-- `WriteChannels::set`. -/
def WriteChannels.set (w : WriteChannels) (c : WsConnectionType)
    (tx : List OutFrame) : WriteChannels :=
  match c with
  | WsConnectionType.Public => { w with public := some tx }
  | WsConnectionType.Private => { w with private' := some tx }
  | WsConnectionType.Business => { w with business := some tx }

/-- `WriteChannels::remove`. -/
def WriteChannels.remove (w : WriteChannels) (c : WsConnectionType) :
    WriteChannels :=
  match c with
  | WsConnectionType.Public => { w with public := none }
  | WsConnectionType.Private => { w with private' := none }
  | WsConnectionType.Business => { w with business := none }

/-- `if let Some(tx) = write_txs.get(conn_type) { let _ = tx.send(json); }`:
append the frame when the channel exists, silently skip otherwise. -/
def WriteChannels.push (w : WriteChannels) (c : WsConnectionType)
    (f : OutFrame) : WriteChannels :=
  match w.get c with
  | some q => w.set c (q ++ [f])
  | none => w

/-- The subset of `WsConfig` (src/ws/types.rs) read by the session logic
modelled here; durations are irrelevant to the state transitions. -/
structure WsConfig where
  credentials : Option Credentials
  auto_reconnect : Bool
deriving DecidableEq

/-- The shared state of one `WebsocketClient` (src/ws/mod.rs): config, the
connection store, the single client-wide pending-request registry, the
per-connection write channels, and the id counter. -/
structure ClientState where
  config : WsConfig
  store : WsStore
  write_txs : WriteChannels
  pending_requests : PendingRequests
  request_id_counter : Nat
deriving DecidableEq

/-- `WebsocketClient::new`. -/
def ClientState.new (config : WsConfig) : ClientState :=
  ⟨config, WsStore.new, WriteChannels.default, PendingRequests.new,
    REQUEST_ID_START⟩

/-- The confirmed (subscribed) topic set of one connection, as a set. -/
def ClientState.subscribedOf (st : ClientState) (c : WsConnectionType) :
    Finset WsSubscriptionArg :=
  (((st.store.get c).map ConnectionStore.subscribed_topics).getD []).toFinset

/-- The pending (awaiting-authentication) topic set of one connection. -/
def ClientState.pendingOf (st : ClientState) (c : WsConnectionType) :
    Finset WsSubscriptionArg :=
  (((st.store.get c).map ConnectionStore.pending_topics).getD []).toFinset

/-- The recorded lifecycle state of one connection, if its record exists. -/
def ClientState.stateOf (st : ClientState) (c : WsConnectionType) :
    Option ConnectionState :=
  (st.store.get c).map ConnectionStore.state

/-- The pending topics of one connection as the stored list (the model's
stand-in for the arbitrary iteration order of the Rust `HashSet`). -/
def ClientState.pendingListOf (st : ClientState) (c : WsConnectionType) :
    List WsSubscriptionArg :=
  ((st.store.get c).map ConnectionStore.pending_topics).getD []

/-- `build_login_request` from src/ws/auth.rs; the clock and the signer are
external collaborators, passed as oracles. -/
def build_login_request (creds : Credentials) (timestamp : Nat)
    (signature : String) : WsLoginRequest :=
  ⟨"login", [⟨creds.apiKey, creds.passphrase, Nat.repr timestamp, signature⟩]⟩

/-- `WebsocketClient::send_subscribe` (src/ws/mod.rs lines 245-282).
For a non-Public connection whose record exists with the authenticated flag
false, the topics are queued in `pending_topics` and the call returns `Ok`
without sending; otherwise one subscribe frame is sent (when the write
channel exists) and the topics are inserted into `subscribed_topics`. -/
def send_subscribe (st : ClientState) (c : WsConnectionType)
    (args : List WsSubscriptionArg) : ClientState × Except OkxError Unit :=
  let queue : Bool :=
    c ≠ WsConnectionType.Public &&
      (match st.store.get c with
       | some conn => !conn.is_authenticated
       | none => false)
  if queue then
    let store := st.store.modify c (fun conn =>
      { conn with
          pending_topics := args.foldl hashset_insert conn.pending_topics })
    ({ st with store := store }, Except.ok ())
  else
    let req := WsSubRequest.subscribe args
    let write_txs := st.write_txs.push c (OutFrame.sub req)
    let store := st.store.modify c (fun conn =>
      { conn with
          subscribed_topics :=
            req.args.foldl hashset_insert conn.subscribed_topics })
    ({ st with write_txs := write_txs, store := store }, Except.ok ())

/-- `WebsocketClient::send_unsubscribe` (src/ws/mod.rs lines 284-306):
always sends one unsubscribe frame (when the channel exists) and removes the
topics from `subscribed_topics`; `pending_topics` is not touched. -/
def send_unsubscribe (st : ClientState) (c : WsConnectionType)
    (args : List WsSubscriptionArg) : ClientState × Except OkxError Unit :=
  let req := WsSubRequest.unsubscribe args
  let write_txs := st.write_txs.push c (OutFrame.sub req)
  let store := st.store.modify c (fun conn =>
    { conn with
        subscribed_topics :=
          req.args.foldl hashset_remove conn.subscribed_topics })
  ({ st with write_txs := write_txs, store := store }, Except.ok ())

/-- The login-success branch of the per-connection processing loop
(src/ws/mod.rs lines 347-368): mark authenticated, drain the pending set,
and when it was nonempty send one combined subscribe frame and move the
drained topics into `subscribed_topics`. -/
def handle_login_success (st : ClientState) (c : WsConnectionType) : ClientState :=
  let conn := st.store.get_or_create c
  let conn := { conn with
      is_authenticated := true, state := ConnectionState.Authenticated }
  let pending := conn.pending_topics
  let conn := { conn with pending_topics := [] }
  let st := { st with store := st.store.set c conn }
  if pending.isEmpty then st
  else
    let req := WsSubRequest.subscribe pending
    let write_txs := st.write_txs.push c (OutFrame.sub req)
    let store := st.store.modify c (fun conn =>
      { conn with
          subscribed_topics :=
            req.args.foldl hashset_insert conn.subscribed_topics })
    { st with write_txs := write_txs, store := store }

/-- The `WsMessage::Event` login branch: the success path runs only when the
acknowledgment's code is `"0"`; a failure is only logged. -/
def process_login_event (st : ClientState) (c : WsConnectionType)
    (evt : WsEvent) : ClientState :=
  if evt.code = some "0" then handle_login_success st c else st

/-- The `WsMessage::Disconnected` branch of the processing loop
(src/ws/mod.rs lines 377-394), before the optional reconnect task: set the
state to Disconnected, clear the authenticated flag, reject every pending
request in the client-wide registry, and drop this connection's write
channel. -/
def handle_disconnect (st : ClientState) (c : WsConnectionType) : ClientState :=
  let store := st.store.modify c (fun conn =>
    { conn with
        state := ConnectionState.Disconnected, is_authenticated := false })
  let pending_requests := st.pending_requests.reject_all
  let write_txs := st.write_txs.remove c
  { st with
      store := store,
      pending_requests := pending_requests,
      write_txs := write_txs }

/-- Topic bookkeeping inside the spawned reconnect task (src/ws/mod.rs lines
406-426): for Public, the confirmed topics are read (not cleared) and
returned for direct resubscription; otherwise they are drained into
`pending_topics` and the returned list is empty. -/
def reconnect_prepare_topics (st : ClientState) (c : WsConnectionType) :
    List WsSubscriptionArg × ClientState :=
  if c = WsConnectionType.Public then
    (((st.store.get c).map ConnectionStore.subscribed_topics).getD [], st)
  else
    let conn := st.store.get_or_create c
    let topics := conn.subscribed_topics
    let conn := { conn with
        subscribed_topics := [],
        pending_topics := topics.foldl hashset_insert conn.pending_topics }
    ([], { st with store := st.store.set c conn })

/-- `WebsocketClient::connect_inner` (src/ws/mod.rs lines 313-484), with the
socket connect as an oracle (`transport_err`: `none` means the connect
succeeded, `some e` the tungstenite failure text) and the clock/signer of
the login path as oracles.  On transport failure the function returns the
error with the store left as mutated so far; on success a fresh write
channel is installed, the state becomes Connected, and for a non-Public
connection with configured credentials one login frame is sent. -/
def connect_inner (st : ClientState) (c : WsConnectionType)
    (transport_err : Option String) (timestamp : Nat) (signature : String) :
    ClientState × Option OkxError :=
  let st := { st with
      store := st.store.modify c (fun conn =>
        { conn with state := ConnectionState.Connecting }) }
  match transport_err with
  | some e => (st, some (OkxError.Ws ("WS connection failed: " ++ e)))
  | none =>
    let st := { st with write_txs := st.write_txs.set c [] }
    let st := { st with
        store := st.store.modify c (fun conn =>
          { conn with state := ConnectionState.Connected }) }
    let st :=
      if c ≠ WsConnectionType.Public then
        match st.config.credentials with
        | some creds =>
          { st with
              write_txs :=
                st.write_txs.push c
                  (OutFrame.login (build_login_request creds timestamp signature)) }
        | none => st
      else st
    (st, none)

/-- `WebsocketClient::ensure_connected` (src/ws/mod.rs lines 225-238). -/
def ensure_connected (st : ClientState) (c : WsConnectionType)
    (transport_err : Option String) (timestamp : Nat) (signature : String) :
    ClientState × Option OkxError :=
  let ok : Bool :=
    match st.store.get c with
    | some conn =>
      conn.state = ConnectionState.Connected ∨
        conn.state = ConnectionState.Authenticated
    | none => false
  if ok then (st, none)
  else connect_inner st c transport_err timestamp signature

/-- The spawned reconnect task (src/ws/mod.rs lines 399-448), after the
delay: prepare the topic sets, reconnect, and for Public resubscribe the
captured topics; connect and resubscribe failures are only logged. -/
def reconnect_task (st : ClientState) (c : WsConnectionType)
    (transport_err : Option String) (timestamp : Nat) (signature : String) :
    ClientState :=
  let (public_topics, st) := reconnect_prepare_topics st c
  match connect_inner st c transport_err timestamp signature with
  | (st, none) =>
    if public_topics.isEmpty then st
    else (send_subscribe st c public_topics).1
  | (st, some _) => st

/-- One disconnect event processed to completion, including the reconnect
task that the handler spawns when `auto_reconnect` is set. -/
def process_disconnect_full (st : ClientState) (c : WsConnectionType)
    (transport_err : Option String) (timestamp : Nat) (signature : String) :
    ClientState :=
  let auto := st.config.auto_reconnect
  let st1 := handle_disconnect st c
  if auto then reconnect_task st1 c transport_err timestamp signature else st1

/-- One iteration of the per-connection processing loop (src/ws/mod.rs lines
344-460).  Returns the new state, whether the loop continues (only a
disconnect breaks it), and the response delivered to a waiter, if any.  The
reconnect task spawned by the disconnect branch runs later and is modelled
separately by `process_disconnect_full`. -/
def process_message (st : ClientState) (c : WsConnectionType)
    (msg : WsMessage) : ClientState × Bool × Option WsApiResponse :=
  match msg with
  | WsMessage.Event evt =>
    if evt.event = "login" then (process_login_event st c evt, true, none)
    else (st, true, none)
  | WsMessage.ApiResponse resp =>
    ({ st with
        pending_requests := (st.pending_requests.resolve resp.id resp).2.1 },
      true, (st.pending_requests.resolve resp.id resp).2.2)
  | WsMessage.Disconnected _ => (handle_disconnect st c, false, none)
  | _ => (st, true, none)

/-- The sending half of `WebsocketClient::send_api_request` (src/ws/mod.rs
lines 181-207): pick the connection by operation name, ensure it is
connected, allocate a correlation id, register it, and send the command
frame.  Returns the allocated id on success. -/
def send_api_request_send (st : ClientState) (op : String)
    (args : List JsonValue) (transport_err : Option String) (timestamp : Nat)
    (signature : String) : ClientState × Except OkxError String :=
  let conn_type :=
    if str_starts_with op "sprd-" then WsConnectionType.Business
    else WsConnectionType.Private
  match ensure_connected st conn_type transport_err timestamp signature with
  | (st, some e) => (st, Except.error e)
  | (st, none) =>
    let (request, counter') := build_api_request op args st.request_id_counter
    let st := { st with request_id_counter := counter' }
    let st := { st with
        pending_requests := st.pending_requests.register request.id }
    match st.write_txs.get conn_type with
    | some q =>
      ({ st with write_txs := st.write_txs.set conn_type (q ++ [OutFrame.api request]) },
        Except.ok request.id)
    | none => (st, Except.error (OkxError.Ws "no connection"))

/-- The awaiting half of `send_api_request` (src/ws/mod.rs lines 209-222),
applied to a response that arrived before the timeout: code `"0"` yields
the payload, anything else a typed API failure carrying that code and
message. -/
def api_response_outcome (response : WsApiResponse) :
    Except OkxError WsApiResponse :=
  if response.code = "0" then Except.ok response
  else Except.error (OkxError.Api response.code response.msg)

/-- A linearized trace of `next_request_id` calls: any interleaving of any
number of concurrent callers is, by atomicity of `fetch_add`, some sequence
of counter reads; `run_id_calls c0 n` is the counter and the ids issued
after `n` such calls starting from counter value `c0`. -/
def run_id_calls (c0 : Nat) : Nat → Nat × List String
  | 0 => (c0, [])
  | k + 1 =>
    let (c, ids) := run_id_calls c0 k
    let (id, c') := next_request_id c
    (c', ids ++ [id])

/-- The numeric value of one decimal-digit character. -/
def digitVal (c : Char) : Nat := c.toNat - Char.toNat '0'

/-- Decode a most-significant-first digit string on top of accumulator `a`. -/
def decodeDigitsAux (a : Nat) (l : List Char) : Nat :=
  l.foldl (fun acc c => 10 * acc + digitVal c) a

/-- The numeric value of a decimal string (left inverse of `Nat.repr`). -/
def decimal_value (s : String) : Nat := decodeDigitsAux 0 s.data

/-- The number obtained by appending the decimal digits of `n` after the
digits already accumulated in `a`. -/
def pushNum (a : Nat) (n : Nat) : Nat :=
  if n < 10 then 10 * a + n
  else 10 * pushNum a (n / 10) + n % 10
termination_by n
decreasing_by
  exact Nat.div_lt_self (by omega) (by omega)

-- Helper lemmas -------------------------------------------------------------

theorem toFinset_hashset_insert {α : Type} [DecidableEq α] (s : List α) (a : α) :
    (hashset_insert s a).toFinset = insert a s.toFinset := by
  ext x
  by_cases h : a ∈ s
  · simp only [hashset_insert, if_pos h, List.mem_toFinset, Finset.mem_insert]
    constructor
    · exact Or.inr
    · rintro (rfl | hx)
      · exact h
      · exact hx
  · simp [hashset_insert, if_neg h, or_comm]

theorem toFinset_foldl_hashset_insert {α : Type} [DecidableEq α]
    (l : List α) (s : List α) :
    (l.foldl hashset_insert s).toFinset = s.toFinset ∪ l.toFinset := by
  induction l generalizing s with
  | nil => simp
  | cons a l ih =>
    simp only [List.foldl_cons, ih, toFinset_hashset_insert, List.toFinset_cons]
    rw [Finset.insert_union, Finset.union_insert]

theorem toFinset_hashset_remove {α : Type} [DecidableEq α] (s : List α) (a : α) :
    (hashset_remove s a).toFinset = s.toFinset.erase a := by
  ext x
  simp only [hashset_remove, List.mem_toFinset, List.mem_filter,
    Finset.mem_erase, decide_eq_true_eq]
  tauto

theorem toFinset_foldl_hashset_remove {α : Type} [DecidableEq α]
    (l : List α) (s : List α) :
    (l.foldl hashset_remove s).toFinset = s.toFinset \ l.toFinset := by
  induction l generalizing s with
  | nil => simp
  | cons a l ih =>
    simp only [List.foldl_cons, ih, toFinset_hashset_remove, List.toFinset_cons]
    ext x
    simp only [Finset.mem_sdiff, Finset.mem_erase, Finset.mem_insert]
    tauto

theorem digitVal_digitChar {d : Nat} (h : d < 10) :
    digitVal (Nat.digitChar d) = d := by
  interval_cases d <;> rfl

theorem decodeDigitsAux_core (fuel : Nat) :
    ∀ n ds a, n < fuel →
      decodeDigitsAux a (Nat.toDigitsCore 10 fuel n ds) =
        decodeDigitsAux (pushNum a n) ds := by
  induction fuel with
  | zero => intro n ds a h; omega
  | succ fuel ih =>
    intro n ds a hn
    rw [Nat.toDigitsCore]
    by_cases h10 : n < 10
    · have hdiv : n / 10 = 0 := Nat.div_eq_of_lt h10
      simp [hdiv, decodeDigitsAux, pushNum, if_pos h10, Nat.mod_eq_of_lt h10,
        digitVal_digitChar h10]
    · have hdiv : ¬ (n / 10 = 0) :=
        (Nat.div_pos (by omega) (by omega)).ne'
      rw [if_neg hdiv]
      have hlt : n / 10 < fuel := by
        have h1 : n / 10 < n := Nat.div_lt_self (by omega) (by omega)
        omega
      rw [ih (n / 10) (Nat.digitChar (n % 10) :: ds) a hlt]
      conv_rhs => rw [pushNum]
      rw [if_neg h10]
      simp [decodeDigitsAux,
        digitVal_digitChar (show n % 10 < 10 from Nat.mod_lt n (by omega))]

theorem pushNum_zero (n : Nat) : pushNum 0 n = n := by
  induction n using Nat.strong_induction_on with
  | _ n ih =>
    rw [pushNum]
    by_cases h : n < 10
    · simp [h]
    · rw [if_neg h, ih (n / 10) (Nat.div_lt_self (by omega) (by omega))]
      omega

theorem decimal_value_repr (n : Nat) : decimal_value (Nat.repr n) = n := by
  have h : (Nat.repr n).data = Nat.toDigitsCore 10 (n + 1) n [] := rfl
  rw [decimal_value, h, decodeDigitsAux_core (n + 1) n [] 0 (Nat.lt_succ_self n)]
  simpa [decodeDigitsAux] using pushNum_zero n

theorem repr_injective {m n : Nat} (h : Nat.repr m = Nat.repr n) : m = n := by
  have := congrArg decimal_value h
  rwa [decimal_value_repr, decimal_value_repr] at this

theorem run_id_calls_counter (c0 k : Nat) (hc0 : c0 < U64_SIZE) :
    (run_id_calls c0 k).1 = (c0 + k) % U64_SIZE := by
  induction k with
  | zero => simp [run_id_calls, Nat.mod_eq_of_lt hc0]
  | succ k ih =>
    simp only [run_id_calls, next_request_id, ih]
    simp only [U64_SIZE]
    omega

theorem run_id_calls_length (c0 k : Nat) :
    (run_id_calls c0 k).2.length = k := by
  induction k with
  | zero => simp [run_id_calls]
  | succ k ih => simp [run_id_calls, next_request_id, ih]

theorem run_id_calls_get (c0 : Nat) (hc0 : c0 < U64_SIZE) :
    ∀ k i, i < k →
      (run_id_calls c0 k).2[i]? = some (Nat.repr ((c0 + i) % U64_SIZE)) := by
  intro k
  induction k with
  | zero => intro i h; omega
  | succ k ih =>
    intro i h
    show ((run_id_calls c0 k).2 ++ [(next_request_id (run_id_calls c0 k).1).1])[i]? = _
    by_cases hk : i < k
    · rw [List.getElem?_append_left (by rw [run_id_calls_length]; exact hk)]
      exact ih i hk
    · have hik : i = k := by omega
      subst hik
      rw [List.getElem?_append_right (by rw [run_id_calls_length])]
      simp [run_id_calls_length, run_id_calls_counter c0 i hc0,
        next_request_id]

@[simp]
theorem WsStore.store_get_set_self (s : WsStore) (c : WsConnectionType)
    (rec : ConnectionStore) : (s.set c rec).get c = some rec := by
  cases c <;> rfl

theorem WsStore.store_get_set_other (s : WsStore) {c d : WsConnectionType}
    (rec : ConnectionStore) (h : d ≠ c) : (s.set c rec).get d = s.get d := by
  cases c <;> cases d <;> first | rfl | exact absurd rfl h

@[simp]
theorem WsStore.get_modify_self (s : WsStore) (c : WsConnectionType)
    (f : ConnectionStore → ConnectionStore) :
    (s.modify c f).get c = some (f (s.get_or_create c)) := by
  cases c <;> rfl

theorem WsStore.get_modify_other (s : WsStore) {c d : WsConnectionType}
    (f : ConnectionStore → ConnectionStore) (h : d ≠ c) :
    (s.modify c f).get d = s.get d := by
  cases c <;> cases d <;> first | rfl | exact absurd rfl h

@[simp]
theorem WriteChannels.chan_get_set_self (w : WriteChannels) (c : WsConnectionType)
    (tx : List OutFrame) : (w.set c tx).get c = some tx := by
  cases c <;> rfl

theorem WriteChannels.chan_get_set_other (w : WriteChannels)
    {c d : WsConnectionType} (tx : List OutFrame) (h : d ≠ c) :
    (w.set c tx).get d = w.get d := by
  cases c <;> cases d <;> first | rfl | exact absurd rfl h

@[simp]
theorem WriteChannels.get_remove_self (w : WriteChannels)
    (c : WsConnectionType) : (w.remove c).get c = none := by
  cases c <;> rfl

@[simp]
theorem WriteChannels.get_push_self (w : WriteChannels) (c : WsConnectionType)
    (f : OutFrame) :
    (w.push c f).get c = (w.get c).map (fun q => q ++ [f]) := by
  cases h : w.get c <;>
    simp [WriteChannels.push, h]

theorem WriteChannels.get_push_other (w : WriteChannels)
    {c d : WsConnectionType} (f : OutFrame) (h : d ≠ c) :
    (w.push c f).get d = w.get d := by
  cases hq : w.get c <;> simp [WriteChannels.push, hq, WriteChannels.chan_get_set_other _ _ h]

@[simp]
theorem WsStore.get_or_create_set_self (s : WsStore) (c : WsConnectionType)
    (rec : ConnectionStore) : (s.set c rec).get_or_create c = rec := by
  cases c <;> rfl

-- Relating `get_or_create` to the observable accessors ----------------------

theorem get_or_create_subscribed (st : ClientState) (c : WsConnectionType) :
    (st.store.get_or_create c).subscribed_topics.toFinset = st.subscribedOf c := by
  cases hrec : st.store.get c <;>
    simp [WsStore.get_or_create, hrec, ClientState.subscribedOf,
      ConnectionStore.new]

theorem get_or_create_pending (st : ClientState) (c : WsConnectionType) :
    (st.store.get_or_create c).pending_topics = st.pendingListOf c := by
  cases hrec : st.store.get c <;>
    simp [WsStore.get_or_create, hrec, ClientState.pendingListOf,
      ConnectionStore.new]

theorem pendingOf_eq_toFinset (st : ClientState) (c : WsConnectionType) :
    st.pendingOf c = (st.pendingListOf c).toFinset := by
  cases hrec : st.store.get c <;>
    simp [ClientState.pendingOf, ClientState.pendingListOf, hrec]

-- Facts about the login-success handler, shared by several claims ------------

theorem handle_login_success_stateOf (st : ClientState) (c : WsConnectionType) :
    (handle_login_success st c).stateOf c = some ConnectionState.Authenticated := by
  rw [handle_login_success]
  split <;>
    simp [ClientState.stateOf, WsStore.modify, WsStore.get_or_create]

theorem handle_login_success_pendingOf (st : ClientState) (c : WsConnectionType) :
    (handle_login_success st c).pendingOf c = ∅ := by
  rw [handle_login_success]
  split <;>
    simp [ClientState.pendingOf, WsStore.modify, WsStore.get_or_create]

theorem handle_login_success_subscribedOf (st : ClientState)
    (c : WsConnectionType) :
    (handle_login_success st c).subscribedOf c =
      st.subscribedOf c ∪ st.pendingOf c := by
  rw [handle_login_success]
  split
  case isTrue h =>
    have hnil : (st.store.get_or_create c).pending_topics = [] :=
      List.isEmpty_iff.mp h
    have h1 : st.pendingOf c = ∅ := by
      rw [pendingOf_eq_toFinset, ← get_or_create_pending, hnil]
      rfl
    have h2 := get_or_create_subscribed st c
    simp [ClientState.subscribedOf, h1, h2]
  case isFalse h =>
    have h2 := get_or_create_subscribed st c
    have h3 := get_or_create_pending st c
    have h4 := pendingOf_eq_toFinset st c
    simp [ClientState.subscribedOf, WsStore.modify,
      WsSubRequest.subscribe, toFinset_foldl_hashset_insert, h2, h3, h4]

theorem handle_login_success_channel (st : ClientState) (c : WsConnectionType)
    (q : List OutFrame) (hch : st.write_txs.get c = some q) :
    (st.pendingListOf c = [] →
      (handle_login_success st c).write_txs.get c = some q) ∧
    (st.pendingListOf c ≠ [] →
      (handle_login_success st c).write_txs.get c =
        some (q ++ [OutFrame.sub (WsSubRequest.subscribe (st.pendingListOf c))])) := by
  have hplist := get_or_create_pending st c
  constructor
  · intro hnil
    rw [handle_login_success]
    split
    case isTrue h => exact hch
    case isFalse h =>
      exact absurd (hplist ▸ hnil) (fun hh => h (List.isEmpty_iff.mpr hh))
  · intro hne
    rw [handle_login_success]
    split
    case isTrue h =>
      exact absurd (hplist ▸ List.isEmpty_iff.mp h) hne
    case isFalse h =>
      simp [hplist, hch]

-- Concrete fixtures used by witnesses and counterexamples --------------------

/-- A concrete client: Private and Business are Connected with write
channels installed (not authenticated), no credentials, auto-reconnect
off. -/
def demo_client : ClientState :=
  { config := { credentials := none, auto_reconnect := false },
    store :=
      (WsStore.new.set WsConnectionType.Private
        { ConnectionStore.new WsConnectionType.Private with
            state := ConnectionState.Connected }).set WsConnectionType.Business
        { ConnectionStore.new WsConnectionType.Business with
            state := ConnectionState.Connected },
    write_txs :=
      (WriteChannels.default.set WsConnectionType.Private []).set
        WsConnectionType.Business [],
    pending_requests := PendingRequests.new,
    request_id_counter := REQUEST_ID_START }

/-- A concrete command response with id `"7"` and success code. -/
def sample_resp : WsApiResponse :=
  ⟨"7", "order", "0", "", [], none, none⟩

-- Claim C5 -------------------------------------------------------------------

/-- C5, counterexample: the claim places `"balance-and-position"` in the
fixed private set, but the router's private set uses the literal
`"balance_and_position"` (underscores), so the hyphenated channel name is in
neither fixed set and routes to Public, not Private. -/
theorem c5_counterexample :
    route_subscription (WsSubscriptionArg.channel_only "balance-and-position") =
        WsConnectionType.Public ∧
      route_subscription (WsSubscriptionArg.channel_only "balance-and-position") ≠
        WsConnectionType.Private := by
  decide

/-- C5, amended: the subscription router is a pure deterministic function of
the topic's channel name; `"tickers"` routes to Public, `"orders"` to
Private, `"candle1m"` and `"deposit-info"` to Business,
`"balance_and_position"` (the underscore spelling used by the fixed private
set) to Private, the hyphenated `"balance-and-position"` to Public, and any
channel in neither fixed set routes to Public. -/
theorem c5_router_table :
    route_subscription (WsSubscriptionArg.channel_only "tickers") =
        WsConnectionType.Public ∧
      route_subscription (WsSubscriptionArg.channel_only "orders") =
        WsConnectionType.Private ∧
      route_subscription (WsSubscriptionArg.channel_only "candle1m") =
        WsConnectionType.Business ∧
      route_subscription (WsSubscriptionArg.channel_only "deposit-info") =
        WsConnectionType.Business ∧
      route_subscription (WsSubscriptionArg.channel_only "balance_and_position") =
        WsConnectionType.Private ∧
      route_subscription (WsSubscriptionArg.channel_only "balance-and-position") =
        WsConnectionType.Public ∧
      (∀ a b : WsSubscriptionArg, a.channel = b.channel →
        route_subscription a = route_subscription b) ∧
      (∀ a : WsSubscriptionArg, a.is_private = false → a.is_business = false →
        route_subscription a = WsConnectionType.Public) := by
  refine ⟨by decide, by decide, by decide, by decide, by decide, by decide, ?_, ?_⟩
  · intro a b h
    simp only [route_subscription, WsSubscriptionArg.is_private,
      WsSubscriptionArg.is_business, h]
  · intro a h1 h2
    simp [route_subscription, h1, h2]

/-- C5, witness for the universally quantified parts of `c5_router_table`:
the unknown channel name `"status"` is in neither fixed set and routes to
Public, and routing agrees on two topics with the same channel but different
filter fields. -/
theorem c5_router_table_witness :
    route_subscription (WsSubscriptionArg.channel_only "status") =
        WsConnectionType.Public ∧
      route_subscription (WsSubscriptionArg.channel_only "tickers") =
        route_subscription (WsSubscriptionArg.with_inst_id "tickers" "BTC-USDT") :=
  ⟨c5_router_table.2.2.2.2.2.2.2 (WsSubscriptionArg.channel_only "status")
      (by decide) (by decide),
    c5_router_table.2.2.2.2.2.2.1 (WsSubscriptionArg.channel_only "tickers")
      (WsSubscriptionArg.with_inst_id "tickers" "BTC-USDT") (by decide)⟩

-- Claim C4 -------------------------------------------------------------------

/-- C4, counterexample: the client holds one shared pending-command registry,
and the disconnect handler's `reject_all` clears all of it.  Concretely:
send a command on Private (id `"1"`), a spread command on Business (id
`"2"`), then process a disconnect of Private; the Business waiter `"2"` is
rejected too, contradicting the claim that waiters of other connections are
left registered. -/
theorem c4_counterexample :
    (send_api_request_send
        (send_api_request_send demo_client "order" [] none 0 "sig").1
        "sprd-order" [] none 0 "sig").2 = Except.ok "2" ∧
      "2" ∈ (send_api_request_send
        (send_api_request_send demo_client "order" [] none 0 "sig").1
        "sprd-order" [] none 0 "sig").1.pending_requests.inner ∧
      "2" ∉ ((process_message
        (send_api_request_send
          (send_api_request_send demo_client "order" [] none 0 "sig").1
          "sprd-order" [] none 0 "sig").1
        WsConnectionType.Private
        (WsMessage.Disconnected WsConnectionType.Private)).1).pending_requests.inner := by
  decide

/-- C4, amended: processing a disconnect event on any connection rejects
every pending command waiter in the client's single shared registry — the
registry is emptied wholesale, regardless of which connection each command
was sent on. -/
theorem c4_reject_all_global (st : ClientState) (c d : WsConnectionType) :
    ((process_message st c (WsMessage.Disconnected d)).1).pending_requests.inner =
      ∅ := by
  rfl

-- Claim C9 -------------------------------------------------------------------

/-- C9, counterexample: on a fresh client, a Private connect whose transport
step fails surfaces an error, but the stored state is Connecting (set at the
start of `connect_inner` and never reset), not Disconnected as the claim
says. -/
theorem c9_counterexample :
    ((connect_inner (ClientState.new ⟨none, false⟩) WsConnectionType.Private
          (some "connection refused") 0 "sig").2).isSome = true ∧
      (connect_inner (ClientState.new ⟨none, false⟩) WsConnectionType.Private
          (some "connection refused") 0 "sig").1.stateOf
          WsConnectionType.Private = some ConnectionState.Connecting ∧
      some ConnectionState.Connecting ≠ some ConnectionState.Disconnected := by
  decide

/-- C9, amended: for every connection type, if the transport connect step of
`connect_inner` fails, the error is surfaced to the caller, and the
connection's state in the store is left as Connecting (the state set before
the transport attempt; it is not reset to Disconnected). -/
theorem c9_connect_failure_leaves_connecting (st : ClientState)
    (c : WsConnectionType) (e : String) (ts : Nat) (sig : String) :
    (connect_inner st c (some e) ts sig).2 =
        some (OkxError.Ws ("WS connection failed: " ++ e)) ∧
      (connect_inner st c (some e) ts sig).1.stateOf c =
        some ConnectionState.Connecting := by
  constructor
  · rfl
  · simp [connect_inner, ClientState.stateOf, WsStore.modify]

-- Claim C8 -------------------------------------------------------------------

/-- C8: if a waiter is registered under a response's id, `resolve` removes
it and fulfills it exactly once (a repeated resolve finds nothing and
delivers nothing) and returns true; if no waiter is registered, `resolve`
returns false, leaves the registry unchanged and delivers nothing; and the
processing loop always continues after a command response. -/
theorem c8_resolve_contract (p : PendingRequests) (resp : WsApiResponse) :
    (resp.id ∈ p.inner →
        p.resolve resp.id resp =
          (true, ⟨p.inner.erase resp.id⟩, some resp) ∧
        resp.id ∉ (p.resolve resp.id resp).2.1.inner ∧
        ((p.resolve resp.id resp).2.1.resolve resp.id resp).1 = false ∧
        ((p.resolve resp.id resp).2.1.resolve resp.id resp).2.2 = none) ∧
      (resp.id ∉ p.inner → p.resolve resp.id resp = (false, p, none)) ∧
      (∀ st c, (process_message st c (WsMessage.ApiResponse resp)).2.1 = true) := by
  refine ⟨?_, ?_, ?_⟩
  · intro h
    simp [PendingRequests.resolve, h, Finset.not_mem_erase]
  · intro h
    simp [PendingRequests.resolve, h]
  · intro st c
    rfl

/-- C8, witness: resolving id `"7"` on a registry holding exactly `"7"`
removes it, and resolving it on an empty registry returns false and changes
nothing. -/
theorem c8_resolve_contract_witness :
    "7" ∉ ((PendingRequests.mk {"7"}).resolve "7" sample_resp).2.1.inner ∧
      PendingRequests.new.resolve "7" sample_resp =
        (false, PendingRequests.new, none) :=
  ⟨((c8_resolve_contract ⟨{"7"}⟩ sample_resp).1 (by decide)).2.1,
    (c8_resolve_contract PendingRequests.new sample_resp).2.1 (by decide)⟩

-- Claim C6 -------------------------------------------------------------------

/-- When `send_api_request` reports a command sent (ok with id), that id is
registered in the pending registry of the resulting state. -/
theorem send_api_request_registers (st : ClientState) (op : String)
    (args : List JsonValue) (te : Option String) (ts : Nat) (sig : String)
    (rid : String)
    (h : (send_api_request_send st op args te ts sig).2 = Except.ok rid) :
    rid ∈ (send_api_request_send st op args te ts sig).1.pending_requests.inner := by
  simp only [send_api_request_send] at h ⊢
  split
  · rename_i st1 e heq
    rw [heq] at h
    simp at h
  · rename_i st1 heq
    rw [heq] at h
    simp only [Prod.mk.injEq] at h
    split
    · rename_i q heq2
      rw [heq2] at h
      simp at h
      subst h
      simp [build_api_request, next_request_id, PendingRequests.register]
    · rename_i heq2
      rw [heq2] at h
      simp at h

/-- C6: for a command sent via `send_api_request` whose response arrives
before the timeout, the processing loop delivers the response to the
registered waiter, and the caller's outcome is the payload when the
response's code is `"0"` and a typed API failure carrying exactly that code
and message otherwise (a total function: no panic). -/
theorem c6_command_response (st : ClientState) (op : String)
    (args : List JsonValue) (te : Option String) (ts : Nat) (sig : String)
    (c : WsConnectionType) (rid : String) (resp : WsApiResponse)
    (hsend : (send_api_request_send st op args te ts sig).2 = Except.ok rid)
    (hid : resp.id = rid) :
    (process_message (send_api_request_send st op args te ts sig).1 c
        (WsMessage.ApiResponse resp)).2.2 = some resp ∧
      (resp.code = "0" → api_response_outcome resp = Except.ok resp) ∧
      (resp.code ≠ "0" →
        api_response_outcome resp =
          Except.error (OkxError.Api resp.code resp.msg)) := by
  have hreg := send_api_request_registers st op args te ts sig rid hsend
  refine ⟨?_, ?_, ?_⟩
  · simp [process_message, PendingRequests.resolve, hid, hreg]
  · intro h
    simp [api_response_outcome, h]
  · intro h
    simp [api_response_outcome, h]

/-- A concrete command response with id `"1"` and a failure code. -/
def sample_resp_1 : WsApiResponse :=
  ⟨"1", "order", "51000", "Parameter error", [], none, none⟩

/-- C6, witness: on the demo client, the first command gets id `"1"`; a
response with that id and a non-zero code is delivered to the waiter and
yields the typed API failure with that code and message. -/
theorem c6_command_response_witness :
    (process_message (send_api_request_send demo_client "order" [] none 0 "s").1
        WsConnectionType.Private (WsMessage.ApiResponse sample_resp_1)).2.2 =
        some sample_resp_1 ∧
      (sample_resp_1.code = "0" →
        api_response_outcome sample_resp_1 = Except.ok sample_resp_1) ∧
      (sample_resp_1.code ≠ "0" →
        api_response_outcome sample_resp_1 =
          Except.error (OkxError.Api sample_resp_1.code sample_resp_1.msg)) :=
  c6_command_response demo_client "order" [] none 0 "s"
    WsConnectionType.Private "1" sample_resp_1 (by decide) rfl

-- Claim C7 -------------------------------------------------------------------

/-- C7, counterexample: `REQUEST_ID_COUNTER` is an `AtomicU64`, and
`fetch_add` wraps at `2 ^ 64`.  In the trace starting from the initial
counter value 1, call position 0 and call position `2 ^ 64` both return the
id `"1"`: the ids of two distinct calls coincide (and the later call's
numeric value is not greater), refuting unbounded process-wide uniqueness
and monotonicity. -/
theorem c7_counterexample :
    (run_id_calls 1 (U64_SIZE + 1)).2[0]? = some "1" ∧
      (run_id_calls 1 (U64_SIZE + 1)).2[U64_SIZE]? = some "1" := by
  constructor
  · rw [run_id_calls_get 1 (by decide) (U64_SIZE + 1) 0 (by omega)]
    rw [show (1 + 0) % U64_SIZE = 1 by decide]
    rfl
  · rw [run_id_calls_get 1 (by decide) (U64_SIZE + 1) U64_SIZE (by omega)]
    rw [show (1 + U64_SIZE) % U64_SIZE = 1 from by
      rw [Nat.add_comm, Nat.add_mod_left]
      decide]
    rfl

/-- C7, amended: correlation ids are distinct, strictly monotonically
increasing decimal strings for any two calls within a window in which the
64-bit counter does not wrap: in the linearization that the atomic
fetch-add imposes on any interleaving of any number of concurrent callers,
if the later call's counter value is still below `2 ^ 64` (the counter
starts at 1, so this covers the first `2 ^ 64 - 1` calls of the process),
the two returned decimal strings are distinct and the later one has the
strictly greater numeric value. -/
theorem c7_request_ids (c0 n i j : Nat) (hc0 : c0 < U64_SIZE)
    (hwrap : c0 + j < U64_SIZE) (hij : i < j) (hjn : j < n)
    (si sj : String)
    (hi : (run_id_calls c0 n).2[i]? = some si)
    (hj : (run_id_calls c0 n).2[j]? = some sj) :
    si ≠ sj ∧ decimal_value si < decimal_value sj := by
  rw [run_id_calls_get c0 hc0 n i (by omega)] at hi
  rw [run_id_calls_get c0 hc0 n j hjn] at hj
  rw [Nat.mod_eq_of_lt (by omega)] at hi
  rw [Nat.mod_eq_of_lt hwrap] at hj
  injection hi with hsi
  injection hj with hsj
  subst hsi
  subst hsj
  constructor
  · intro hEq
    have := repr_injective hEq
    omega
  · rw [decimal_value_repr, decimal_value_repr]
    omega

/-- C7, witness: in a three-call trace from the initial counter, calls 0 and
1 return `"1"` and `"2"`, which are distinct and numerically increasing. -/
theorem c7_request_ids_witness :
    ("1" : String) ≠ "2" ∧ decimal_value "1" < decimal_value "2" :=
  c7_request_ids 1 3 0 1 (by decide) (by decide) (by decide) (by decide)
    "1" "2" (by decide) (by decide)

-- Claim C2 -------------------------------------------------------------------

/-- C2: for topics routed to an authentication-requiring connection whose
authenticated flag is false, `send_subscribe` sends no frame (all write
channels unchanged), inserts the topics into that connection's pending set
(the confirmed set is unchanged), and returns success. -/
theorem c2_subscribe_preauth_queues (st : ClientState) (c : WsConnectionType)
    (args : List WsSubscriptionArg) (conn : ConnectionStore)
    (_hroute : ∀ a ∈ args, route_subscription a = c)
    (hc : c ≠ WsConnectionType.Public)
    (hrec : st.store.get c = some conn)
    (hauth : conn.is_authenticated = false) :
    (send_subscribe st c args).2 = Except.ok () ∧
      (send_subscribe st c args).1.write_txs = st.write_txs ∧
      (send_subscribe st c args).1.pendingOf c =
        st.pendingOf c ∪ args.toFinset ∧
      (send_subscribe st c args).1.subscribedOf c = st.subscribedOf c := by
  refine ⟨?_, ?_, ?_, ?_⟩ <;>
    simp [send_subscribe, hrec, hauth, hc, ClientState.pendingOf,
      ClientState.subscribedOf, WsStore.modify, WsStore.get_or_create,
      toFinset_foldl_hashset_insert]

/-- C2, witness: on the demo client (Private connected, not authenticated),
subscribing to the private channel `orders` queues it in pending, leaves the
confirmed set and write channels untouched and returns success. -/
theorem c2_subscribe_preauth_queues_witness :
    (send_subscribe demo_client WsConnectionType.Private
        [WsSubscriptionArg.channel_only "orders"]).2 = Except.ok () ∧
      (send_subscribe demo_client WsConnectionType.Private
        [WsSubscriptionArg.channel_only "orders"]).1.write_txs =
        demo_client.write_txs ∧
      (send_subscribe demo_client WsConnectionType.Private
        [WsSubscriptionArg.channel_only "orders"]).1.pendingOf
          WsConnectionType.Private =
        demo_client.pendingOf WsConnectionType.Private ∪
          [WsSubscriptionArg.channel_only "orders"].toFinset ∧
      (send_subscribe demo_client WsConnectionType.Private
        [WsSubscriptionArg.channel_only "orders"]).1.subscribedOf
          WsConnectionType.Private =
        demo_client.subscribedOf WsConnectionType.Private :=
  c2_subscribe_preauth_queues demo_client WsConnectionType.Private
    [WsSubscriptionArg.channel_only "orders"]
    { ConnectionStore.new WsConnectionType.Private with
        state := ConnectionState.Connected }
    (by decide) (by decide) (by decide) rfl

-- Claim C1 -------------------------------------------------------------------

/-- C1, counterexample: a login success event processed on a connection with
an empty pending set sends no subscribe frame at all (the channel queue
stays empty — zero frames, not exactly one), although the state does become
Authenticated. -/
theorem c1_counterexample :
    ((process_message demo_client WsConnectionType.Private
          (WsMessage.Event ⟨"login", some "0", none⟩)).1.write_txs.get
        WsConnectionType.Private).map List.length = some 0 ∧
      (process_message demo_client WsConnectionType.Private
          (WsMessage.Event ⟨"login", some "0", none⟩)).1.stateOf
        WsConnectionType.Private = some ConnectionState.Authenticated := by
  decide

/-- C1, amended: processing a login control event with success code `"0"`
sets the connection's state to Authenticated, drains its pending set to
empty, and moves every drained topic into the confirmed set; if the drained
set was nonempty, exactly one combined subscribe frame containing exactly
those topics is appended to that connection's write channel, and if it was
empty, no frame is sent. -/
theorem c1_login_success_flush (st : ClientState) (c : WsConnectionType)
    (evt : WsEvent) (q : List OutFrame)
    (hev : evt.event = "login") (hcode : evt.code = some "0")
    (hch : st.write_txs.get c = some q) :
    (process_message st c (WsMessage.Event evt)).1.stateOf c =
        some ConnectionState.Authenticated ∧
      (process_message st c (WsMessage.Event evt)).1.pendingOf c = ∅ ∧
      (process_message st c (WsMessage.Event evt)).1.subscribedOf c =
        st.subscribedOf c ∪ st.pendingOf c ∧
      (st.pendingOf c ≠ ∅ →
        (process_message st c (WsMessage.Event evt)).1.write_txs.get c =
          some (q ++
            [OutFrame.sub (WsSubRequest.subscribe (st.pendingListOf c))]) ∧
        (st.pendingListOf c).toFinset = st.pendingOf c) ∧
      (st.pendingOf c = ∅ →
        (process_message st c (WsMessage.Event evt)).1.write_txs.get c =
          some q) := by
  have hred : (process_message st c (WsMessage.Event evt)).1 =
      handle_login_success st c := by
    simp [process_message, hev, process_login_event, hcode]
  rw [hred]
  have hchan := handle_login_success_channel st c q hch
  refine ⟨handle_login_success_stateOf st c,
    handle_login_success_pendingOf st c,
    handle_login_success_subscribedOf st c, ?_, ?_⟩
  · intro hne
    have hlist : st.pendingListOf c ≠ [] := by
      intro hw
      apply hne
      rw [pendingOf_eq_toFinset, hw]
      rfl
    exact ⟨hchan.2 hlist, (pendingOf_eq_toFinset st c).symm⟩
  · intro hemp
    have hlist : st.pendingListOf c = [] := by
      have hp := pendingOf_eq_toFinset st c
      rw [hemp] at hp
      exact (List.toFinset_eq_empty_iff (st.pendingListOf c)).mp hp.symm
    exact hchan.1 hlist

/-- C1, witness for the amended claim, at the demo client (empty pending
set): the state becomes Authenticated. -/
theorem c1_login_success_flush_witness :
    (process_message demo_client WsConnectionType.Private
        (WsMessage.Event ⟨"login", some "0", none⟩)).1.stateOf
      WsConnectionType.Private = some ConnectionState.Authenticated :=
  (c1_login_success_flush demo_client WsConnectionType.Private
    ⟨"login", some "0", none⟩ [] rfl rfl (by decide)).1

-- Claim C3 -------------------------------------------------------------------

/-- C3: processing a disconnect with auto-reconnect enabled (transport
reconnect succeeding): for a Private or Business connection the confirmed
set is emptied and every topic that was in it appears in the pending set
(which becomes exactly old pending united with old confirmed); for the
Public connection the confirmed set is unchanged, and when it is nonempty
its topics are resent in one subscribe frame on the fresh write channel
with no caller action. -/
theorem c3_disconnect_reconnect_topics (st : ClientState)
    (c : WsConnectionType) (conn : ConnectionStore) (ts : Nat) (sig : String)
    (har : st.config.auto_reconnect = true)
    (hrec : st.store.get c = some conn) :
    (c ≠ WsConnectionType.Public →
        (process_disconnect_full st c none ts sig).subscribedOf c = ∅ ∧
        (process_disconnect_full st c none ts sig).pendingOf c =
          conn.pending_topics.toFinset ∪ conn.subscribed_topics.toFinset ∧
        conn.subscribed_topics.toFinset ⊆
          (process_disconnect_full st c none ts sig).pendingOf c) ∧
      (c = WsConnectionType.Public →
        (process_disconnect_full st c none ts sig).subscribedOf c =
          conn.subscribed_topics.toFinset ∧
        (conn.subscribed_topics ≠ [] →
          (process_disconnect_full st c none ts sig).write_txs.get c =
            some [OutFrame.sub
              (WsSubRequest.subscribe conn.subscribed_topics)])) := by
  cases c with
  | Public =>
    simp only [WsStore.get] at hrec
    refine ⟨fun hc => absurd rfl hc, fun _ => ?_⟩
    by_cases hS : conn.subscribed_topics = []
    · constructor
      · simp [process_disconnect_full, har, reconnect_task,
          reconnect_prepare_topics, handle_disconnect, connect_inner,
          send_subscribe, ClientState.subscribedOf, WsStore.modify,
          WsStore.get_or_create, WsStore.get, WsStore.set, hrec, hS]
      · intro hne
        exact absurd hS hne
    · have hSne : ¬ conn.subscribed_topics.isEmpty = true := by
        simpa [List.isEmpty_iff] using hS
      constructor
      · simp [process_disconnect_full, har, reconnect_task,
          reconnect_prepare_topics, handle_disconnect, connect_inner,
          send_subscribe, ClientState.subscribedOf, WsStore.modify,
          WsStore.get_or_create, WsStore.get, WsStore.set, hrec, hSne,
          WsSubRequest.subscribe, toFinset_foldl_hashset_insert,
          Finset.union_self]
      · intro _
        simp [process_disconnect_full, har, reconnect_task,
          reconnect_prepare_topics, handle_disconnect, connect_inner,
          send_subscribe, WsStore.modify, WsStore.get_or_create,
          WsStore.get, WsStore.set, hrec, hSne, WsSubRequest.subscribe,
          WriteChannels.push, WriteChannels.get, WriteChannels.set,
          WriteChannels.remove]
  | Private =>
    simp only [WsStore.get] at hrec
    refine ⟨fun _ => ?_, fun hc => absurd hc (by simp)⟩
    cases hcred : st.config.credentials with
    | none =>
      refine ⟨?_, ?_, ?_⟩
      · simp [process_disconnect_full, har, reconnect_task,
          reconnect_prepare_topics, handle_disconnect, connect_inner, hcred,
          ClientState.subscribedOf, WsStore.modify, WsStore.get_or_create,
          WsStore.get, WsStore.set, hrec]
      · simp [process_disconnect_full, har, reconnect_task,
          reconnect_prepare_topics, handle_disconnect, connect_inner, hcred,
          ClientState.pendingOf, WsStore.modify, WsStore.get_or_create,
          WsStore.get, WsStore.set, hrec, toFinset_foldl_hashset_insert]
      · intro t ht
        simp [process_disconnect_full, har, reconnect_task,
          reconnect_prepare_topics, handle_disconnect, connect_inner, hcred,
          ClientState.pendingOf, WsStore.modify, WsStore.get_or_create,
          WsStore.get, WsStore.set, hrec, toFinset_foldl_hashset_insert]
        exact Or.inr (List.mem_toFinset.mp ht)
    | some creds =>
      refine ⟨?_, ?_, ?_⟩
      · simp [process_disconnect_full, har, reconnect_task,
          reconnect_prepare_topics, handle_disconnect, connect_inner, hcred,
          ClientState.subscribedOf, WsStore.modify, WsStore.get_or_create,
          WsStore.get, WsStore.set, hrec]
      · simp [process_disconnect_full, har, reconnect_task,
          reconnect_prepare_topics, handle_disconnect, connect_inner, hcred,
          ClientState.pendingOf, WsStore.modify, WsStore.get_or_create,
          WsStore.get, WsStore.set, hrec, toFinset_foldl_hashset_insert]
      · intro t ht
        simp [process_disconnect_full, har, reconnect_task,
          reconnect_prepare_topics, handle_disconnect, connect_inner, hcred,
          ClientState.pendingOf, WsStore.modify, WsStore.get_or_create,
          WsStore.get, WsStore.set, hrec, toFinset_foldl_hashset_insert]
        exact Or.inr (List.mem_toFinset.mp ht)
  | Business =>
    simp only [WsStore.get] at hrec
    refine ⟨fun _ => ?_, fun hc => absurd hc (by simp)⟩
    cases hcred : st.config.credentials with
    | none =>
      refine ⟨?_, ?_, ?_⟩
      · simp [process_disconnect_full, har, reconnect_task,
          reconnect_prepare_topics, handle_disconnect, connect_inner, hcred,
          ClientState.subscribedOf, WsStore.modify, WsStore.get_or_create,
          WsStore.get, WsStore.set, hrec]
      · simp [process_disconnect_full, har, reconnect_task,
          reconnect_prepare_topics, handle_disconnect, connect_inner, hcred,
          ClientState.pendingOf, WsStore.modify, WsStore.get_or_create,
          WsStore.get, WsStore.set, hrec, toFinset_foldl_hashset_insert]
      · intro t ht
        simp [process_disconnect_full, har, reconnect_task,
          reconnect_prepare_topics, handle_disconnect, connect_inner, hcred,
          ClientState.pendingOf, WsStore.modify, WsStore.get_or_create,
          WsStore.get, WsStore.set, hrec, toFinset_foldl_hashset_insert]
        exact Or.inr (List.mem_toFinset.mp ht)
    | some creds =>
      refine ⟨?_, ?_, ?_⟩
      · simp [process_disconnect_full, har, reconnect_task,
          reconnect_prepare_topics, handle_disconnect, connect_inner, hcred,
          ClientState.subscribedOf, WsStore.modify, WsStore.get_or_create,
          WsStore.get, WsStore.set, hrec]
      · simp [process_disconnect_full, har, reconnect_task,
          reconnect_prepare_topics, handle_disconnect, connect_inner, hcred,
          ClientState.pendingOf, WsStore.modify, WsStore.get_or_create,
          WsStore.get, WsStore.set, hrec, toFinset_foldl_hashset_insert]
      · intro t ht
        simp [process_disconnect_full, har, reconnect_task,
          reconnect_prepare_topics, handle_disconnect, connect_inner, hcred,
          ClientState.pendingOf, WsStore.modify, WsStore.get_or_create,
          WsStore.get, WsStore.set, hrec, toFinset_foldl_hashset_insert]
        exact Or.inr (List.mem_toFinset.mp ht)

/-- Demo client with auto-reconnect enabled. -/
def demo_client_ar : ClientState :=
  { demo_client with config := { credentials := none, auto_reconnect := true } }

/-- C3, witness: on the auto-reconnect demo client, a Private disconnect
leaves the confirmed set empty after the reconnect task runs. -/
theorem c3_disconnect_reconnect_topics_witness :
    (process_disconnect_full demo_client_ar WsConnectionType.Private none 0
        "s").subscribedOf WsConnectionType.Private = ∅ :=
  ((c3_disconnect_reconnect_topics demo_client_ar WsConnectionType.Private
      { ConnectionStore.new WsConnectionType.Private with
          state := ConnectionState.Connected }
      0 "s" rfl (by decide)).1 (by decide)).1

-- Claim C10 ------------------------------------------------------------------

/-- C10: `send_unsubscribe` removes the topics only from that connection's
confirmed set: the call succeeds, the connection's pending set and every
other connection's two sets are unchanged, and a topic queued in pending
survives the unsubscribe and is still moved to the confirmed set by the
post-login flush. -/
theorem c10_unsubscribe_keeps_pending (st : ClientState)
    (c : WsConnectionType) (args : List WsSubscriptionArg) :
    (send_unsubscribe st c args).2 = Except.ok () ∧
      (send_unsubscribe st c args).1.pendingOf c = st.pendingOf c ∧
      (send_unsubscribe st c args).1.subscribedOf c =
        st.subscribedOf c \ args.toFinset ∧
      (∀ d, d ≠ c →
        (send_unsubscribe st c args).1.pendingOf d = st.pendingOf d ∧
        (send_unsubscribe st c args).1.subscribedOf d = st.subscribedOf d) ∧
      (∀ t, t ∈ st.pendingOf c →
        t ∈ (handle_login_success (send_unsubscribe st c args).1
          c).subscribedOf c) := by
  have hpend : (send_unsubscribe st c args).1.pendingOf c = st.pendingOf c := by
    simp [send_unsubscribe, ClientState.pendingOf, WsStore.modify,
      pendingOf_eq_toFinset, get_or_create_pending, ClientState.pendingListOf]
  refine ⟨rfl, hpend, ?_, ?_, ?_⟩
  · simp [send_unsubscribe, ClientState.subscribedOf, WsStore.modify,
      toFinset_foldl_hashset_remove, get_or_create_subscribed,
      WsSubRequest.unsubscribe]
  · intro d hd
    constructor <;>
      simp [send_unsubscribe, ClientState.pendingOf, ClientState.subscribedOf,
        WsStore.get_modify_other _ _ hd]
  · intro t ht
    rw [handle_login_success_subscribedOf, hpend]
    exact Finset.mem_union_right _ ht

/-- Demo client with one topic queued in Private's pending set. -/
def demo_client_pending : ClientState :=
  { demo_client with
      store := demo_client.store.set WsConnectionType.Private
        { ConnectionStore.new WsConnectionType.Private with
            state := ConnectionState.Connected,
            pending_topics := [WsSubscriptionArg.channel_only "orders"] } }

/-- C10, witness: a topic pending on Private survives an unsubscribe for it
and is flushed into the confirmed set by the post-login handler. -/
theorem c10_unsubscribe_keeps_pending_witness :
    WsSubscriptionArg.channel_only "orders" ∈
      (handle_login_success
        (send_unsubscribe demo_client_pending WsConnectionType.Private
          [WsSubscriptionArg.channel_only "orders"]).1
        WsConnectionType.Private).subscribedOf WsConnectionType.Private :=
  (c10_unsubscribe_keeps_pending demo_client_pending WsConnectionType.Private
      [WsSubscriptionArg.channel_only "orders"]).2.2.2.2
    (WsSubscriptionArg.channel_only "orders") (by decide)

end OkxWs
